import Mathlib

/-!
Verification of the connection-probing and device-info-resolution core of the
`samsungtv_smart` integration (`custom_components/samsungtv_smart/__init__.py`),
class `SamsungTVInfo`.

The Python code is shallowly embedded: the external world (socket/WebSocket
open outcomes per port, the HTTP descriptor fetch outcome, the SmartThings
cloud health-check outcome, the token-file system state) is an explicit `Env`;
the mutable `self` object is an explicit `SamsungTVInfo` record threaded
through the functions; Python exceptions that a function may raise are the
`.error` side of `Except PyExn`; a caught exception never appears in the
result.  Python truthiness (`if not device:`, `if device_id and ...`,
`if api_key and st_device_id:`) is modelled by an explicit `truthy` on a small
JSON value type.  The result-code constants imported from `.const`
(`RESULT_SUCCESS`, ...) are distinct abstract tokens, modelled as an
enumeration.
-/

namespace SamsungTVSmart

/-- The closed result-code enumeration (`RESULT_SUCCESS`, `RESULT_NOT_SUCCESSFUL`,
`RESULT_NOT_SUPPORTED`, `RESULT_ST_DEVICE_NOT_FOUND`, `RESULT_WRONG_APIKEY`
imported from `.const`). -/
inductive ResultCode where
  | success
  | notSuccessful
  | notSupported
  | stDeviceNotFound
  | wrongApikey
deriving Repr, DecidableEq

abbrev RESULT_SUCCESS : ResultCode := .success
abbrev RESULT_NOT_SUCCESSFUL : ResultCode := .notSuccessful
abbrev RESULT_NOT_SUPPORTED : ResultCode := .notSupported
abbrev RESULT_ST_DEVICE_NOT_FOUND : ResultCode := .stDeviceNotFound
abbrev RESULT_WRONG_APIKEY : ResultCode := .wrongApikey

/-- Python exceptions that can escape the embedded functions. -/
inductive PyExn where
  | clientResponseError (status : Nat)
  | jsonDecodeError
  | attributeError
  | other
deriving Repr, DecidableEq

/-- A JSON value as returned by `resp.json()`, restricted to the shapes the
descriptor endpoint can produce. -/
inductive JValue where
  | str (s : String)
  | bool (b : Bool)
  | num (n : Int)
  | obj (fields : List (String × JValue))
deriving Repr

/-- Python truthiness of a JSON value (`str` is falsy iff empty, `bool` is
itself, a number is falsy iff zero, a dict is falsy iff empty). -/
def truthy : JValue → Bool
  | .str s => s != ""
  | .bool b => b
  | .num n => n != 0
  | .obj fields => !fields.isEmpty

/-- Python truthiness where `none` models Python `None`. -/
def truthyOpt : Option JValue → Bool
  | none => false
  | some v => truthy v

/-- `dict.get(k)` on a JSON object given as an association list:
`None` when the key is absent. -/
def jget (fields : List (String × JValue)) (k : String) : Option JValue :=
  (fields.find? (fun p => p.1 == k)).map (fun p => p.2)

/-- Python truthiness of an optional string argument (`api_key`,
`st_device_id`): `None` and `""` are falsy. -/
def truthyStrOpt : Option String → Bool
  | none => false
  | some s => s != ""

/-- Outcome of one `SamsungTVWS(...)`/`remote.open()` attempt on one port:
either the open succeeds, or it raises one of the three exception classes the
code catches (`OSError`, `ConnectionFailure`, `WebSocketException`), or it
raises something else, which the code does not catch. -/
inductive WSOutcome where
  | opened
  | osError
  | connectionFailure
  | webSocketException
  | raised (e : PyExn)
deriving Repr, DecidableEq

/-- The three exception classes `_try_connect_ws` catches. -/
def recognizedWsFailure (o : WSOutcome) : Prop :=
  o = .osError ∨ o = .connectionFailure ∨ o = .webSocketException

instance (o : WSOutcome) : Decidable (recognizedWsFailure o) := by
  unfold recognizedWsFailure; infer_instance

/-- Outcome of `session.get(tv_url(...), raise_for_status=True)` followed by
`resp.json()`: a timeout (`asyncio.TimeoutError`), a connection failure
(`ClientConnectionError`), an HTTP error status (raised by `raise_for_status`
as `ClientResponseError`, not in the `except` tuple), a malformed body
(`resp.json()` raises, not in the `except` tuple), or a parsed JSON object. -/
inductive HttpOutcome where
  | timeoutError
  | clientConnectionError
  | httpError (status : Nat)
  | badJson
  | ok (info : List (String × JValue))
deriving Repr

/-- Outcome of the SmartThings interaction inside `_try_connect_st`:
health check returns True / returns False / `ClientResponseError` with a
status / `asyncio.TimeoutError` from `timeout(10)` / any other exception. -/
inductive STOutcome where
  | healthy
  | notHealthy
  | clientResponseError (status : Nat)
  | timeoutError
  | otherException
deriving Repr, DecidableEq

/-- The external world of one resolution attempt: whether the caller passed a
live session, what each WebSocket port attempt does, what the HTTP descriptor
fetch does, what the cloud health check does, and the token-file system state
(`os.path.isfile` result, whether `open(token_file, "w+")` succeeds, and the
directory of the module file). -/
structure Env where
  sessionPresent : Bool
  wsOutcome : Nat → WSOutcome
  httpFetch : HttpOutcome
  stOutcome : STOutcome
  tokenFileExists : Bool
  tokenFileCreatable : Bool
  tokenDir : String

/-- The mutable fields of a `SamsungTVInfo` object. -/
structure SamsungTVInfo where
  hostname : String
  name : Option JValue
  uuid : Option JValue
  macaddress : Option JValue
  device_name : Option JValue
  device_model : Option JValue
  device_os : Option JValue
  token_support : Option JValue
  port : Nat
deriving Repr

/-- `SamsungTVInfo.__init__(self, hass, hostname, name="")`. -/
def SamsungTVInfo.init (hostname name : String) : SamsungTVInfo :=
  { hostname := hostname
    name := some (.str name)
    uuid := none
    macaddress := none
    device_name := none
    device_model := none
    device_os := none
    token_support := some (.bool false)
    port := 0 }

/-- The token-file path built by `_gen_token_file`:
`os.path.dirname(os.path.realpath(__file__)) + "/token-" + self._hostname + ".txt"`. -/
def token_file_path (env : Env) (hostname : String) : String :=
  env.tokenDir ++ "/token-" ++ hostname ++ ".txt"

/-- `SamsungTVInfo._gen_token_file(self, port)`.  Returns the handle the call
returns together with whether a new file was created on disk:
`None` for any port other than 8002; for 8002, creates the file only if
absent, and returns `None` (without raising) when creation fails. -/
def gen_token_file (env : Env) (hostname : String) (port : Nat) :
    Option String × Bool :=
  if port ≠ 8002 then (none, false)
  else
    let token_file := token_file_path env hostname
    if env.tokenFileExists = false then
      if env.tokenFileCreatable then (some token_file, true)
      else (none, false)
    else (some token_file, false)

/-- Result of `_try_connect_ws`: the returned result code (or an uncaught
exception), the object state after the call, and the list of
(port, token-file handle) pairs actually passed to `SamsungTVWS`, in order. -/
structure ProbeResult where
  outcome : Except PyExn ResultCode
  state : SamsungTVInfo
  attempts : List (Nat × Option String)
deriving Repr

/-- The `for port in (8001, 8002):` loop body of `_try_connect_ws`: on a
successful open, set `self._port = port` and return `RESULT_SUCCESS`
immediately; on `OSError`/`ConnectionFailure`/`WebSocketException`, log and
continue with the next port; any other exception propagates; when the ports
are exhausted, return `RESULT_NOT_SUCCESSFUL`. -/
def try_connect_ws_ports (env : Env) (s : SamsungTVInfo) :
    List Nat → ProbeResult
  | [] => ⟨.ok RESULT_NOT_SUCCESSFUL, s, []⟩
  | p :: rest =>
    let handle := (gen_token_file env s.hostname p).1
    match env.wsOutcome p with
    | .opened => ⟨.ok RESULT_SUCCESS, { s with port := p }, [(p, handle)]⟩
    | .osError | .connectionFailure | .webSocketException =>
      let r := try_connect_ws_ports env s rest
      ⟨r.outcome, r.state, (p, handle) :: r.attempts⟩
    | .raised e => ⟨.error e, s, [(p, handle)]⟩

/-- `SamsungTVInfo._try_connect_ws(self)`: try ports 8001 then 8002. -/
def try_connect_ws (env : Env) (s : SamsungTVInfo) : ProbeResult :=
  try_connect_ws_ports env s [8001, 8002]

/-- `SamsungTVInfo._try_connect_st(self, api_key, device_id, session)`:
health True → `RESULT_SUCCESS`; health False → `RESULT_ST_DEVICE_NOT_FOUND`;
`ClientResponseError` with status 400 → `RESULT_ST_DEVICE_NOT_FOUND`,
any other status falls through to `RESULT_WRONG_APIKEY`; every other
exception (including the 10-second timeout) → `RESULT_WRONG_APIKEY`.
This function catches every exception and never raises. -/
def try_connect_st : STOutcome → ResultCode
  | .healthy => RESULT_SUCCESS
  | .notHealthy => RESULT_ST_DEVICE_NOT_FOUND
  | .clientResponseError status =>
    if status = 400 then RESULT_ST_DEVICE_NOT_FOUND else RESULT_WRONG_APIKEY
  | .timeoutError => RESULT_WRONG_APIKEY
  | .otherException => RESULT_WRONG_APIKEY

/-- Python `s.startswith(pre)`, computed over the character lists so that it
reduces definitionally. -/
def pyStartswith (s pre : String) : Bool :=
  pre.data.isPrefixOf s.data

/-- `device_id = device.get("id"); if device_id and device_id.startswith("uuid:"):
self._uuid = device_id[len("uuid:"):] else: self._uuid = device_id`.
A truthy non-string value would make `.startswith` raise `AttributeError`. -/
def strip_device_id : Option JValue → Except PyExn (Option JValue)
  | some (.str sid) =>
    if sid != "" && pyStartswith sid "uuid:" then
      .ok (some (.str (sid.drop ("uuid:".length))))
    else .ok (some (.str sid))
  | some v => if truthy v then .error .attributeError else .ok (some v)
  | none => .ok none

/-- Lines 245-256 of `get_device_info`: extract the descriptor fields from the
`device` object into the instance fields, including the `uuid:`
prefix-stripping rule and the `self._name` fallback
(`if not self._name: self._name = self._device_name`). -/
def updateFromDevice (s : SamsungTVInfo) (dfields : List (String × JValue)) :
    Except PyExn SamsungTVInfo :=
  match strip_device_id (jget dfields "id") with
  | .error e => .error e
  | .ok uuid =>
    -- the source assigns the fields one by one; as the assignments are to
    -- distinct fields and `self._name` is read before being written, this is
    -- one simultaneous record update, where the `if not self._name:` fallback
    -- reads the caller-supplied name and the just-fetched `device.get("name")`
    .ok { s with
      uuid := uuid
      macaddress := jget dfields "wifiMac"
      device_name := jget dfields "name"
      name := if truthyOpt s.name then s.name else jget dfields "name"
      device_model := jget dfields "modelName"
      device_os := jget dfields "OS"
      token_support := jget dfields "TokenAuthSupport" }

/-- `SamsungTVInfo.get_device_info(self, session, api_key=None, st_device_id=None)`:
the full fail-fast pipeline.  Returns the result code (or the uncaught
exception) together with the final object state. -/
def get_device_info (env : Env) (s : SamsungTVInfo)
    (api_key st_device_id : Option String) :
    Except PyExn ResultCode × SamsungTVInfo :=
  if env.sessionPresent = false then (.ok RESULT_NOT_SUCCESSFUL, s)
  else
    let pr := try_connect_ws env s
    match pr.outcome with
    | .error e => (.error e, pr.state)
    | .ok code =>
      if code ≠ RESULT_SUCCESS then (.ok code, pr.state)
      else
        match env.httpFetch with
        | .timeoutError => (.ok RESULT_NOT_SUCCESSFUL, pr.state)
        | .clientConnectionError => (.ok RESULT_NOT_SUCCESSFUL, pr.state)
        | .httpError status => (.error (.clientResponseError status), pr.state)
        | .badJson => (.error .jsonDecodeError, pr.state)
        | .ok info =>
          match jget info "device" with
          | none => (.ok RESULT_NOT_SUCCESSFUL, pr.state)
          | some device =>
            if truthy device = false then (.ok RESULT_NOT_SUCCESSFUL, pr.state)
            else
              match device with
              | .obj dfields =>
                match updateFromDevice pr.state dfields with
                | .error e => (.error e, pr.state)
                | .ok s2 =>
                  if truthyStrOpt api_key && truthyStrOpt st_device_id then
                    (.ok (try_connect_st env.stOutcome), s2)
                  else (.ok code, s2)
              | _ => (.error .attributeError, pr.state)

/-! ### Concrete environments used by counterexamples and witnesses -/

/-- Port 8001 opens, descriptor fetch answers with HTTP status 404. -/
def envHttp404 : Env :=
  { sessionPresent := true
    wsOutcome := fun p => if p = 8001 then .opened else .osError
    httpFetch := .httpError 404
    stOutcome := .healthy
    tokenFileExists := false
    tokenFileCreatable := true
    tokenDir := "/cfg" }

/-- Port 8001 opens, descriptor fetch returns a malformed body. -/
def envBadJson : Env := { envHttp404 with httpFetch := .badJson }

/-- Port 8001 opens, descriptor fetch times out. -/
def envTimeout : Env := { envHttp404 with httpFetch := .timeoutError }

/-- Port 8001 opens, descriptor fetch hits a connection failure. -/
def envConnErr : Env := { envHttp404 with httpFetch := .clientConnectionError }

/-- Port 8001 opens, descriptor fetch succeeds with a device object that has
an `id` and a `wifiMac` but no `name`. -/
def envNoName : Env := { envHttp404 with
  httpFetch := .ok
    [("device", .obj [("id", .str "uuid:ABC"), ("wifiMac", .str "aa:bb")])] }

/-- Port 8001 opens, descriptor fetch succeeds with a device object carrying
an `id` and a `name`; the cloud health check reports not healthy. -/
def envST : Env := { envHttp404 with
  httpFetch := .ok [("device", .obj [("id", .str "uuid:ABC"), ("name", .str "TV")])]
  stOutcome := .notHealthy }

/-- Port 8001 opens, descriptor fetch succeeds with a body that has no
`device` key. -/
def envNoDevice : Env := { envHttp404 with httpFetch := .ok [("other", .num 1)] }

/-- Port 8001 opens, descriptor fetch succeeds with a `device` key mapped to
the empty object. -/
def envEmptyDevice : Env := { envHttp404 with httpFetch := .ok [("device", .obj [])] }

/-- Port 8001 fails with `OSError`, port 8002 opens. -/
def envSecondPort : Env := { envHttp404 with
  wsOutcome := fun p => if p = 8002 then .opened else .osError }

/-- Both ports fail with recognized transport errors. -/
def envBothFail : Env := { envHttp404 with
  wsOutcome := fun p => if p = 8001 then .connectionFailure else .webSocketException }

/-- Token file already on disk. -/
def envExists : Env := { envHttp404 with tokenFileExists := true }

/-- Token file absent and not creatable. -/
def envNoCreate : Env := { envHttp404 with tokenFileCreatable := false }

/-- A fresh object, as built by `SamsungTVInfo.__init__`. -/
def s0 : SamsungTVInfo := SamsungTVInfo.init "h" "n"

/-- The object state after extracting
`[("id", "uuid:ABC"), ("wifiMac", "aa:bb")]` into a fresh object whose
caller-supplied name is `"MyTV"`. -/
def s2NoName : SamsungTVInfo :=
  { hostname := "host"
    name := some (.str "MyTV")
    uuid := some (.str "ABC")
    macaddress := some (.str "aa:bb")
    device_name := none
    device_model := none
    device_os := none
    token_support := none
    port := 0 }

/-- The object state after a successful 8001 probe and extraction of
`[("id", "uuid:ABC"), ("name", "TV")]` starting from `s0`. -/
def s2ST : SamsungTVInfo :=
  { hostname := "h"
    name := some (.str "n")
    uuid := some (.str "ABC")
    macaddress := none
    device_name := some (.str "TV")
    device_model := none
    device_os := none
    token_support := none
    port := 8001 }

/-- Extraction of `[("id", "uuid:ABC")]` starting from `s0`. -/
def s2Uuid : SamsungTVInfo := { s2ST with device_name := none, port := 0 }

/-- Extraction of `[("id", "DEF-1")]` starting from `s0`. -/
def s2Raw : SamsungTVInfo := { s2Uuid with uuid := some (.str "DEF-1") }

/-! ### Helper lemmas -/

/-- The descriptor-extraction step never touches `self._port`. -/
theorem updateFromDevice_port (s : SamsungTVInfo) (dfields : List (String × JValue))
    (s2 : SamsungTVInfo) (h : updateFromDevice s dfields = .ok s2) :
    s2.port = s.port := by
  unfold updateFromDevice at h
  rcases hs : strip_device_id (jget dfields "id") with e | u <;> rw [hs] at h
  · cases h
  · cases h
    rfl

/-- Starting from an object with `port = 0`, the probe leaves the port nonzero
exactly when it returns `RESULT_SUCCESS`. -/
theorem try_connect_ws_port_iff (env : Env) (s : SamsungTVInfo) (h : s.port = 0) :
    ((try_connect_ws env s).state.port ≠ 0 ↔
      (try_connect_ws env s).outcome = .ok RESULT_SUCCESS) := by
  unfold try_connect_ws
  rcases h1 : env.wsOutcome 8001 <;> rcases h2 : env.wsOutcome 8002 <;>
    simp [try_connect_ws_ports, h, h1, h2]

/-- When a session is present, the `port` field of the final state is
whatever the probe left there: no later step of `get_device_info` modifies
it. -/
theorem get_device_info_port (env : Env) (s : SamsungTVInfo) (k d : Option String)
    (h : env.sessionPresent = true) :
    (get_device_info env s k d).2.port = (try_connect_ws env s).state.port := by
  unfold get_device_info
  rw [h]
  simp only [Bool.true_eq_false, if_false]
  rcases ho : (try_connect_ws env s).outcome with e | code
  · rfl
  · by_cases hc : code = RESULT_SUCCESS
    case neg => simp [hc]
    subst hc
    simp only [ne_eq, not_true_eq_false, if_false]
    rcases hf : env.httpFetch with _ | _ | st | _ | info
    · rfl
    · rfl
    · rfl
    · rfl
    · dsimp only
      rcases hd : jget info "device" with _ | v
      · rfl
      · dsimp only
        by_cases ht : truthy v = false
        · simp [ht]
        · simp only [ht, if_false]
          rcases v with sv | bv | nv | dfields
          · rfl
          · rfl
          · rfl
          · dsimp only
            rcases hu : updateFromDevice (try_connect_ws env s).state dfields with e | s2
            · rfl
            · dsimp only
              by_cases hk : (truthyStrOpt k && truthyStrOpt d) = true <;>
                simp [hk, updateFromDevice_port _ _ _ hu]

/-- The probe of one string never starts with the five-character prefix
when the string is empty. -/
theorem pyStartswith_uuid_ne_empty (sid : String)
    (h : pyStartswith sid "uuid:" = true) : (sid != "") = true := by
  rcases sid with ⟨cs⟩
  cases cs with
  | nil => exact absurd h (by decide)
  | cons c cs => rfl

/-- `strip_device_id` on a string value, written as a single conditional. -/
theorem strip_device_id_str (sid : String) :
    strip_device_id (some (.str sid)) =
      .ok (some (.str (if sid != "" && pyStartswith sid "uuid:"
        then sid.drop ("uuid:".length) else sid))) := by
  unfold strip_device_id
  by_cases hc : (sid != "" && pyStartswith sid "uuid:") = true <;> simp [hc]

/-- The extraction step stores exactly the stripped device id in `uuid`. -/
theorem updateFromDevice_uuid (s : SamsungTVInfo) (dfields : List (String × JValue))
    (s2 : SamsungTVInfo) (h : updateFromDevice s dfields = .ok s2) :
    strip_device_id (jget dfields "id") = .ok s2.uuid := by
  unfold updateFromDevice at h
  rcases hs : strip_device_id (jget dfields "id") with e | u <;> rw [hs] at h
  · cases h
  · cases h
    rfl

/-! ### Claim theorems -/

/-- C1 (counterexample): inside `get_device_info`, an HTTP error-status
response to the descriptor fetch (here a 404, raised by `raise_for_status`
as `ClientResponseError`) and a malformed response body (here a JSON decode
failure in `resp.json()`) are NOT converted to `RESULT_NOT_SUCCESSFUL`: the
raw protocol exception propagates out of `get_device_info` to the caller,
contrary to the claim. -/
theorem C1_counterexample :
    (get_device_info envHttp404 s0 none none).1 = .error (.clientResponseError 404) ∧
    (get_device_info envBadJson s0 none none).1 = .error .jsonDecodeError :=
  ⟨rfl, rfl⟩

/-- C1 (amended): of the failure modes of the HTTP descriptor-fetch step
inside `get_device_info`, exactly the timeout (`asyncio.TimeoutError`) and
the connection failure (`ClientConnectionError`) are caught and converted to
`RESULT_NOT_SUCCESSFUL`; an HTTP error-status response and a malformed
response body are not caught and propagate to the caller as raw
exceptions. -/
theorem C1_amended (env : Env) (s : SamsungTVInfo) (k d : Option String)
    (h1 : env.sessionPresent = true)
    (h2 : (try_connect_ws env s).outcome = .ok RESULT_SUCCESS) :
    (env.httpFetch = .timeoutError →
      get_device_info env s k d = (.ok RESULT_NOT_SUCCESSFUL, (try_connect_ws env s).state)) ∧
    (env.httpFetch = .clientConnectionError →
      get_device_info env s k d = (.ok RESULT_NOT_SUCCESSFUL, (try_connect_ws env s).state)) ∧
    (∀ status : Nat, env.httpFetch = .httpError status →
      get_device_info env s k d =
        (.error (.clientResponseError status), (try_connect_ws env s).state)) ∧
    (env.httpFetch = .badJson →
      get_device_info env s k d = (.error .jsonDecodeError, (try_connect_ws env s).state)) := by
  unfold get_device_info
  rw [h1]
  simp only [Bool.true_eq_false, if_false]
  rw [h2]
  simp only [ne_eq, not_true_eq_false, if_false]
  refine ⟨fun hf => ?_, fun hf => ?_, fun status hf => ?_, fun hf => ?_⟩ <;> rw [hf]

/-- C1 (amended, witness): the four fetch failure modes at a host whose port
8001 probe succeeds. -/
theorem C1_amended_witness :
    get_device_info envTimeout s0 none none = (.ok RESULT_NOT_SUCCESSFUL, { s0 with port := 8001 }) ∧
    get_device_info envConnErr s0 none none = (.ok RESULT_NOT_SUCCESSFUL, { s0 with port := 8001 }) ∧
    get_device_info envHttp404 s0 none none =
      (.error (.clientResponseError 404), { s0 with port := 8001 }) ∧
    get_device_info envBadJson s0 none none = (.error .jsonDecodeError, { s0 with port := 8001 }) :=
  ⟨(C1_amended envTimeout s0 none none rfl rfl).1 rfl,
   (C1_amended envConnErr s0 none none rfl rfl).2.1 rfl,
   (C1_amended envHttp404 s0 none none rfl rfl).2.2.1 404 rfl,
   (C1_amended envBadJson s0 none none rfl rfl).2.2.2 rfl⟩

/-- C2 (counterexample): with caller-supplied name `"MyTV"` and a fetched
descriptor whose device object has no `name` key, the resulting
`device_name` is `None`, not the caller-supplied name: the fallback in the
code goes the other way around. -/
theorem C2_counterexample :
    jget [("id", .str "uuid:ABC"), ("wifiMac", .str "aa:bb")] "name" = none ∧
    ((get_device_info envNoName (SamsungTVInfo.init "host" "MyTV") none none).2).device_name
      = none ∧
    ((get_device_info envNoName (SamsungTVInfo.init "host" "MyTV") none none).2).device_name
      ≠ some (.str "MyTV") :=
  ⟨rfl, rfl, fun h => Option.noConfusion h⟩

/-- C2 (amended): after a successful descriptor fetch, `device_name` is taken
verbatim from the descriptor (`None` when the descriptor lacks a name) and it
is the caller-supplied `name` that falls back to the descriptor device name
when the caller-supplied name is falsy. -/
theorem C2_amended (s : SamsungTVInfo) (dfields : List (String × JValue))
    (s2 : SamsungTVInfo) (h : updateFromDevice s dfields = .ok s2) :
    s2.device_name = jget dfields "name" ∧
    s2.name = (if truthyOpt s.name then s.name else jget dfields "name") := by
  unfold updateFromDevice at h
  rcases hs : strip_device_id (jget dfields "id") with e | u <;> rw [hs] at h
  · cases h
  · cases h
    exact ⟨rfl, rfl⟩

/-- C2 (amended, witness): concrete extraction with a device object lacking
`name` and a truthy caller-supplied name. -/
theorem C2_amended_witness :
    s2NoName.device_name = jget [("id", .str "uuid:ABC"), ("wifiMac", .str "aa:bb")] "name" ∧
    s2NoName.name = (if truthyOpt (SamsungTVInfo.init "host" "MyTV").name
      then (SamsungTVInfo.init "host" "MyTV").name
      else jget [("id", .str "uuid:ABC"), ("wifiMac", .str "aa:bb")] "name") :=
  C2_amended (SamsungTVInfo.init "host" "MyTV")
    [("id", .str "uuid:ABC"), ("wifiMac", .str "aa:bb")] s2NoName rfl

/-- C3: the prober tries 8001 then 8002 in that fixed order; if 8001 opens it
records port 8001 and returns `RESULT_SUCCESS` having attempted only 8001
(whatever port 8002 would have done); if 8001 fails with a recognized
transport error and 8002 opens, it records port 8002 and returns
`RESULT_SUCCESS`; if both fail with recognized transport errors it returns
`RESULT_NOT_SUCCESSFUL` and leaves the state unchanged. -/
theorem C3_probe_order (env : Env) (s : SamsungTVInfo) :
    (env.wsOutcome 8001 = .opened →
      try_connect_ws env s =
        ⟨.ok RESULT_SUCCESS, { s with port := 8001 }, [(8001, none)]⟩) ∧
    (recognizedWsFailure (env.wsOutcome 8001) → env.wsOutcome 8002 = .opened →
      try_connect_ws env s =
        ⟨.ok RESULT_SUCCESS, { s with port := 8002 },
          [(8001, none), (8002, (gen_token_file env s.hostname 8002).1)]⟩) ∧
    (recognizedWsFailure (env.wsOutcome 8001) → recognizedWsFailure (env.wsOutcome 8002) →
      try_connect_ws env s =
        ⟨.ok RESULT_NOT_SUCCESSFUL, s,
          [(8001, none), (8002, (gen_token_file env s.hostname 8002).1)]⟩) := by
  refine ⟨fun h1 => ?_, fun h1 h2 => ?_, fun h1 h2 => ?_⟩
  · simp [try_connect_ws, try_connect_ws_ports, h1, gen_token_file]
  · rcases h1 with h1 | h1 | h1 <;>
      simp [try_connect_ws, try_connect_ws_ports, h1, h2, gen_token_file]
  · rcases h1 with h1 | h1 | h1 <;> rcases h2 with h2 | h2 | h2 <;>
      simp [try_connect_ws, try_connect_ws_ports, h1, h2, gen_token_file]

/-- C3 (witness): 8001 opening short-circuits; 8001 failing then 8002 opening
records 8002; both failing yields `RESULT_NOT_SUCCESSFUL`. -/
theorem C3_probe_order_witness :
    try_connect_ws envHttp404 s0 =
      ⟨.ok RESULT_SUCCESS, { s0 with port := 8001 }, [(8001, none)]⟩ ∧
    try_connect_ws envSecondPort s0 =
      ⟨.ok RESULT_SUCCESS, { s0 with port := 8002 },
        [(8001, none), (8002, some "/cfg/token-h.txt")]⟩ ∧
    try_connect_ws envBothFail s0 =
      ⟨.ok RESULT_NOT_SUCCESSFUL, s0, [(8001, none), (8002, some "/cfg/token-h.txt")]⟩ :=
  ⟨(C3_probe_order envHttp404 s0).1 rfl,
   (C3_probe_order envSecondPort s0).2.1 (Or.inl rfl) rfl,
   (C3_probe_order envBothFail s0).2.2 (Or.inr (Or.inl rfl)) (Or.inr (Or.inr rfl))⟩

/-- C4: the cloud health check maps a healthy report to `RESULT_SUCCESS`, an
unhealthy report to `RESULT_ST_DEVICE_NOT_FOUND`, a `ClientResponseError`
with status 400 to `RESULT_ST_DEVICE_NOT_FOUND`, a `ClientResponseError`
with any other status to `RESULT_WRONG_APIKEY`, and a timeout or any other
exception to `RESULT_WRONG_APIKEY`. -/
theorem C4_cloud_health_classification :
    try_connect_st .healthy = RESULT_SUCCESS ∧
    try_connect_st .notHealthy = RESULT_ST_DEVICE_NOT_FOUND ∧
    (∀ status : Nat, try_connect_st (.clientResponseError status) =
      if status = 400 then RESULT_ST_DEVICE_NOT_FOUND else RESULT_WRONG_APIKEY) ∧
    try_connect_st .timeoutError = RESULT_WRONG_APIKEY ∧
    try_connect_st .otherException = RESULT_WRONG_APIKEY :=
  ⟨rfl, rfl, fun _ => rfl, rfl, rfl⟩

/-- C5: in `get_device_info`, when the session is present, the probe and the
descriptor fetch succeed and the extraction completes, supplying both a cloud
API key and a cloud device id makes the final result the result code of the
cloud health check, while a missing or empty credential on either side makes
`get_device_info` return `RESULT_SUCCESS` directly with no cloud call
involved in the result. -/
theorem C5_cloud_override (env : Env) (s : SamsungTVInfo) (k d : Option String)
    (h1 : env.sessionPresent = true)
    (h2 : (try_connect_ws env s).outcome = .ok RESULT_SUCCESS)
    (info : List (String × JValue)) (h3 : env.httpFetch = .ok info)
    (dfields : List (String × JValue)) (h4 : jget info "device" = some (.obj dfields))
    (h5 : dfields.isEmpty = false)
    (s2 : SamsungTVInfo)
    (h6 : updateFromDevice (try_connect_ws env s).state dfields = .ok s2) :
    (truthyStrOpt k = true → truthyStrOpt d = true →
      get_device_info env s k d = (.ok (try_connect_st env.stOutcome), s2)) ∧
    ((truthyStrOpt k = false ∨ truthyStrOpt d = false) →
      get_device_info env s k d = (.ok RESULT_SUCCESS, s2)) := by
  unfold get_device_info
  rw [h1]
  simp only [Bool.true_eq_false, if_false]
  rw [h2]
  simp only [ne_eq, not_true_eq_false, if_false]
  rw [h3]
  dsimp only
  rw [h4]
  dsimp only
  simp only [truthy, h5, Bool.not_false, Bool.true_eq_false, if_false]
  rw [h6]
  dsimp only
  refine ⟨fun hk hd2 => ?_, fun hor => ?_⟩
  · simp [hk, hd2]
  · rcases hor with hk | hk <;> simp [hk]

/-- C5 (witness): with both credentials the unhealthy cloud check overrides
to `RESULT_ST_DEVICE_NOT_FOUND`; with no credentials the same run returns
`RESULT_SUCCESS`. -/
theorem C5_cloud_override_witness :
    get_device_info envST s0 (some "key") (some "dev")
      = (.ok RESULT_ST_DEVICE_NOT_FOUND, s2ST) ∧
    get_device_info envST s0 none none = (.ok RESULT_SUCCESS, s2ST) :=
  ⟨(C5_cloud_override envST s0 (some "key") (some "dev") rfl rfl
      [("device", .obj [("id", .str "uuid:ABC"), ("name", .str "TV")])] rfl
      [("id", .str "uuid:ABC"), ("name", .str "TV")] rfl rfl s2ST rfl).1 rfl rfl,
   (C5_cloud_override envST s0 none none rfl rfl
      [("device", .obj [("id", .str "uuid:ABC"), ("name", .str "TV")])] rfl
      [("id", .str "uuid:ABC"), ("name", .str "TV")] rfl rfl s2ST rfl).2 (Or.inl rfl)⟩

/-- C6: when the parsed descriptor body has no `device` key,
`get_device_info` returns `RESULT_NOT_SUCCESSFUL`, even though the probe
returned `RESULT_SUCCESS`. -/
theorem C6_missing_device_key (env : Env) (s : SamsungTVInfo) (k d : Option String)
    (h1 : env.sessionPresent = true)
    (h2 : (try_connect_ws env s).outcome = .ok RESULT_SUCCESS)
    (info : List (String × JValue)) (h3 : env.httpFetch = .ok info)
    (h4 : jget info "device" = none) :
    get_device_info env s k d = (.ok RESULT_NOT_SUCCESSFUL, (try_connect_ws env s).state) := by
  unfold get_device_info
  rw [h1]
  simp only [Bool.true_eq_false, if_false]
  rw [h2]
  simp only [ne_eq, not_true_eq_false, if_false]
  rw [h3]
  dsimp only
  rw [h4]

/-- C6 (witness): a body `{"other": 1}` with a successful 8001 probe. -/
theorem C6_missing_device_key_witness :
    get_device_info envNoDevice s0 none none
      = (.ok RESULT_NOT_SUCCESSFUL, { s0 with port := 8001 }) :=
  C6_missing_device_key envNoDevice s0 none none rfl rfl [("other", .num 1)] rfl rfl

/-- C7: the credential-cache handle is tied to port 8002 only: any other port
gets no handle and creates no file; for 8002 the handle is the token-file
path keyed by the hostname, the file is created only when absent, and when it
cannot be created the prober gets no handle and the probe result is the same
as if creation had worked, instead of the probe failing. -/
theorem C7_token_file (env : Env) (host : String) (port : Nat) (s : SamsungTVInfo) :
    (port ≠ 8002 → gen_token_file env host port = (none, false)) ∧
    (env.tokenFileExists = true →
      gen_token_file env host 8002 = (some (token_file_path env host), false)) ∧
    (env.tokenFileExists = false → env.tokenFileCreatable = true →
      gen_token_file env host 8002 = (some (token_file_path env host), true)) ∧
    (env.tokenFileExists = false → env.tokenFileCreatable = false →
      gen_token_file env host 8002 = (none, false)) ∧
    (try_connect_ws { env with tokenFileCreatable := false } s).outcome =
      (try_connect_ws env s).outcome := by
  refine ⟨fun hp => ?_, fun he => ?_, fun he hc => ?_, fun he hc => ?_, ?_⟩
  · simp [gen_token_file, hp]
  · simp [gen_token_file, he]
  · simp [gen_token_file, he, hc]
  · simp [gen_token_file, he, hc]
  · unfold try_connect_ws
    rcases h1 : env.wsOutcome 8001 <;> rcases h2 : env.wsOutcome 8002 <;>
      simp [try_connect_ws_ports, h1, h2]

/-- C7 (witness): no handle for 8001; handle without creation when the file
exists; creation when absent and creatable; no handle and unchanged probe
outcome when creation fails. -/
theorem C7_token_file_witness :
    gen_token_file envHttp404 "h" 8001 = (none, false) ∧
    gen_token_file envExists "h" 8002 = (some "/cfg/token-h.txt", false) ∧
    gen_token_file envHttp404 "h" 8002 = (some "/cfg/token-h.txt", true) ∧
    gen_token_file envNoCreate "h" 8002 = (none, false) ∧
    (try_connect_ws { envHttp404 with tokenFileCreatable := false } s0).outcome =
      (try_connect_ws envHttp404 s0).outcome :=
  ⟨(C7_token_file envHttp404 "h" 8001 s0).1 (by decide),
   (C7_token_file envExists "h" 8002 s0).2.1 rfl,
   (C7_token_file envHttp404 "h" 8002 s0).2.2.1 rfl rfl,
   (C7_token_file envNoCreate "h" 8002 s0).2.2.2.1 rfl rfl,
   (C7_token_file envHttp404 "h" 8001 s0).2.2.2.2⟩

/-- C8: `working_port` starts at 0 under `__init__` and, whenever a session is
present, the port left in the final state of `get_device_info` is nonzero
exactly when the transport prober returned `RESULT_SUCCESS` — in particular it
stays nonzero when later steps fail after a successful probe, and stays 0 on
every path where the prober returns `RESULT_NOT_SUCCESSFUL`. -/
theorem C8_port_invariant (env : Env) (host name : String) (k d : Option String)
    (h : env.sessionPresent = true) :
    (SamsungTVInfo.init host name).port = 0 ∧
    (((get_device_info env (SamsungTVInfo.init host name) k d).2).port ≠ 0 ↔
      (try_connect_ws env (SamsungTVInfo.init host name)).outcome = .ok RESULT_SUCCESS) := by
  refine ⟨rfl, ?_⟩
  rw [get_device_info_port env _ k d h]
  exact try_connect_ws_port_iff env _ rfl

/-- C8 (witness): at a host whose descriptor fetch fails with a 404 after a
successful probe, the port is 8001 and the equivalence holds. -/
theorem C8_port_invariant_witness :
    envHttp404.sessionPresent = true ∧
    ((SamsungTVInfo.init "h" "n").port = 0 ∧
      (((get_device_info envHttp404 (SamsungTVInfo.init "h" "n") none none).2).port ≠ 0 ↔
        (try_connect_ws envHttp404 (SamsungTVInfo.init "h" "n")).outcome
          = .ok RESULT_SUCCESS)) :=
  ⟨rfl, C8_port_invariant envHttp404 "h" "n" none none rfl⟩

/-- C9: the uuid stored by the extraction step is the raw device id with a
leading `"uuid:"` prefix stripped when present, and the raw id unchanged when
the prefix is absent. -/
theorem C9_uuid_prefix_strip (s : SamsungTVInfo) (dfields : List (String × JValue))
    (sid : String) (h : jget dfields "id" = some (.str sid))
    (s2 : SamsungTVInfo) (h2 : updateFromDevice s dfields = .ok s2) :
    (pyStartswith sid "uuid:" = true →
      s2.uuid = some (.str (sid.drop ("uuid:".length)))) ∧
    (pyStartswith sid "uuid:" = false → s2.uuid = some (.str sid)) := by
  have hu := updateFromDevice_uuid s dfields s2 h2
  rw [h, strip_device_id_str] at hu
  injection hu with hu
  constructor
  · intro hst
    rw [← hu, pyStartswith_uuid_ne_empty sid hst, hst]
    rfl
  · intro hst
    rw [← hu, hst]
    simp

/-- C9 (witness): `"uuid:ABC"` is stripped to `"ABC"`; `"DEF-1"` is kept
unchanged. -/
theorem C9_uuid_prefix_strip_witness :
    s2Uuid.uuid = some (.str ("uuid:ABC".drop ("uuid:".length))) ∧
    s2Raw.uuid = some (.str "DEF-1") :=
  ⟨(C9_uuid_prefix_strip s0 [("id", .str "uuid:ABC")] "uuid:ABC" rfl s2Uuid rfl).1 rfl,
   (C9_uuid_prefix_strip s0 [("id", .str "DEF-1")] "DEF-1" rfl s2Raw rfl).2 rfl⟩

/-- C10: a descriptor whose `device` key is present but maps to a falsy value
(such as the empty object) is treated exactly like a missing `device` key:
`get_device_info` returns `RESULT_NOT_SUCCESSFUL`, because the code tests the
truthiness of the value, not the presence of the key. -/
theorem C10_falsy_device (env : Env) (s : SamsungTVInfo) (k d : Option String)
    (v : JValue) (h1 : env.sessionPresent = true)
    (h2 : (try_connect_ws env s).outcome = .ok RESULT_SUCCESS)
    (info : List (String × JValue)) (h3 : env.httpFetch = .ok info)
    (h4 : jget info "device" = some v) (h5 : truthy v = false) :
    get_device_info env s k d = (.ok RESULT_NOT_SUCCESSFUL, (try_connect_ws env s).state) := by
  unfold get_device_info
  rw [h1]
  simp only [Bool.true_eq_false, if_false]
  rw [h2]
  simp only [ne_eq, not_true_eq_false, if_false]
  rw [h3]
  dsimp only
  rw [h4]
  dsimp only
  simp [h5]

/-- C10 (witness): the body `{"device": {}}` yields `RESULT_NOT_SUCCESSFUL`
despite a successful 8001 probe. -/
theorem C10_falsy_device_witness :
    get_device_info envEmptyDevice s0 none none
      = (.ok RESULT_NOT_SUCCESSFUL, { s0 with port := 8001 }) :=
  C10_falsy_device envEmptyDevice s0 none none (.obj []) rfl rfl
    [("device", .obj [])] rfl rfl rfl

end SamsungTVSmart
